import Mathlib

/-!
Verification development for the e-requesting synchronization service
(`src/main.py`).  The Python module is shallowly embedded: dictionaries
become structures with `Option` fields where a key may be absent, Python
exceptions become an explicit `PyError` sum carried in `Except` /
`Option`, and the network collaborators (EMR fetch, repository submit,
response location) become explicit inputs of a `SyncEnv` record.
-/

/-- Python-level failures the pipeline can raise. -/
inductive PyError where
  | alreadySynchronized
  | keyError
  | indexError
deriving DecidableEq, Repr

deriving instance DecidableEq for Except

/-- A FHIR coding: system / code / display, each possibly absent. -/
structure Coding where
  system : Option String
  code : Option String
  display : Option String
deriving DecidableEq, Repr

/-- A FHIR codeable concept: a list of codings with optional text. -/
structure CodeableConcept where
  coding : List Coding
  text : Option String
deriving DecidableEq, Repr

/-- A FHIR reference: a single reference string. -/
structure Reference where
  reference : String
deriving DecidableEq, Repr

/-- An entry of a record's `identifier` list.  The `system` key may be
absent in the source data (Python dict), hence `Option`. -/
structure IdentEntry where
  system : Option String
  value : String
deriving DecidableEq, Repr

/-- The `meta` block of a fetched resource; only the profile list is
relevant to the pipeline's behaviour. -/
structure MetaData where
  profile : Option (List String)
deriving DecidableEq, Repr

/-- Decimal digits of `n`, most significant first, via an explicit fuel
argument so the definition is structural and kernel-evaluable.  Fuel
`n + 1` always suffices because the argument shrinks by division. -/
def natToDigitsAux : Nat → Nat → List Char
  | 0, _ => []
  | fuel + 1, n =>
    if n < 10 then [Char.ofNat (48 + n)]
    else natToDigitsAux fuel (n / 10) ++ [Char.ofNat (48 + n % 10)]

/-- Decimal digit characters of `n`, most significant first. -/
def natToDigits (n : Nat) : List Char :=
  natToDigitsAux (n + 1) n

/-- Left-pad a digit string with `'0'` to width 6 — the semantics of
Python's `"%06d"` format for a non-negative argument. -/
def padSix (l : List Char) : List Char :=
  List.replicate (6 - l.length) '0' ++ l

/-- Numeric value of a digit string (the inverse reading used to check
that the padded field still denotes the sequence number). -/
def digitsToNat (l : List Char) : Nat :=
  l.foldl (fun a c => a * 10 + (c.toNat - 48)) 0

/-- The structured requisition identifier, `identifier(order_id)` in
`src/main.py`: a fixed placer-group-number coding plus the value
`"BEDA0325-%06d" % order_id`. -/
structure IdentifierType where
  type : CodeableConcept
  system : String
  value : String
deriving DecidableEq, Repr

/-- Embedding of `identifier(order_id)` from `src/main.py` (lines 17–31). -/
def identifier (order_id : Nat) : IdentifierType :=
  { type :=
      { coding :=
          [{ system := some "http://terminology.hl7.org/CodeSystem/v2-0203",
             code := some "PGN", display := none }],
        text := some "Placer Group Number" },
    system := "http://diagnostic-orders-are-us.com.au/ids/pgn",
    value := "BEDA0325-" ++ String.mk (padSix (natToDigits order_id)) }

/-- The source order record (`sr` in `src/main.py`): the fields the
pipeline reads (`code`, `priority`, `intent`, `identifier`) together
with the record's own `id` and `category`, which the source data model
carries. -/
structure OrderRecord where
  id : String
  identifier : List IdentEntry
  category : List CodeableConcept
  code : CodeableConcept
  priority : String
  intent : String
deriving DecidableEq, Repr

/-- The serialized patient resolved from `sr["subject"]`
(`patient_data`): its id, its `meta` block, and the remaining fields,
kept opaque as key/value pairs because the pipeline passes them through
untouched. -/
structure PatientData where
  id : String
  meta : MetaData
  fields : List (String × String)
deriving DecidableEq, Repr

/-- The serialized encounter resolved from `sr["encounter"]`
(`encounter_data`): the keys the pipeline deletes or rewrites (`id`,
`meta`, `participant`, `class`) plus the untouched remainder. -/
structure EncounterData where
  id : String
  meta : MetaData
  participant : List (String × String)
  class_ : Coding
  fields : List (String × String)
deriving DecidableEq, Repr

/-- The patient body placed into the outbound bundle: `meta` and `id`
deleted, other fields passed through. -/
structure PatientOut where
  meta : Option MetaData
  id : Option String
  fields : List (String × String)
deriving DecidableEq, Repr

/-- The encounter body placed into the outbound bundle: `meta`,
`participant` and `id` deleted, `class` replaced by the fixed AMB
coding, `subject` set to the patient placeholder, other fields passed
through. -/
structure EncounterOut where
  id : Option String
  meta : Option MetaData
  class_ : Coding
  subject : Reference
  fields : List (String × String)
deriving DecidableEq, Repr

/-- A resource contained inline in the outbound order (`contained`). -/
inductive Contained where
  | coverage (id status : String) (type : CodeableConcept)
      (beneficiary : Reference) (payorDisplay : String)
  | encounterStub (id status : String) (class_ : Coding)
deriving DecidableEq, Repr

/-- Embedding of `contained(patient_id)` from `src/main.py` (lines 34–65): the
Coverage stub and the Encounter stub embedded in the outbound order. -/
def contained (patient_id : String) : List Contained :=
  [Contained.coverage "coverage" "active"
      { coding :=
          [{ system := some "http://terminology.hl7.org/CodeSystem/v3-ActCode",
             code := some "PUBLICPOL", display := some "public healthcare" }],
        text := some "Bulk Billed" }
      { reference := "urn:uuid:" ++ patient_id }
      "Medicare Australia",
   Contained.encounterStub "encounter" "finished"
      { system := some "http://terminology.hl7.org/CodeSystem/v3-ActCode",
        code := some "AMB", display := some "ambulatory" }]

/-- An extension attached to the outbound order. -/
structure Extension where
  url : String
  valueInteger : Int
deriving DecidableEq, Repr

/-- The outbound order resource (`external_sr` in `src/main.py`). -/
structure ExternalSR where
  meta : MetaData
  requisition : IdentifierType
  id : String
  contained : List Contained
  authoredOn : String
  category : List CodeableConcept
  code : CodeableConcept
  priority : String
  requester : Reference
  status : String
  intent : String
  subject : Reference
  encounter : Reference
  insurance : List Reference
  extension : List Extension
deriving DecidableEq, Repr

/-- The `meta` block of an outbound task: profile list plus tag list. -/
structure TaskMeta where
  profile : List String
  tag : List Coding
deriving DecidableEq, Repr

/-- An outbound task resource (`external_group_task` / `external_task`
in `src/main.py`). -/
structure TaskOut where
  meta : TaskMeta
  groupIdentifier : IdentifierType
  status : String
  businessStatus : CodeableConcept
  priority : String
  code : CodeableConcept
  intent : String
  focus : Reference
  owner : Reference
  authoredOn : String
  for_ : Reference
  requester : Reference
deriving DecidableEq, Repr

/-- A resource body occurring as a bundle entry. -/
inductive Resource where
  | serviceRequest (s : ExternalSR)
  | patientRes (p : PatientOut)
  | taskRes (t : TaskOut)
  | encounterRes (e : EncounterOut)
deriving DecidableEq, Repr

/-- The `request` part of a bundle entry. -/
structure RequestInfo where
  url : String
  method : String
deriving DecidableEq, Repr

/-- One entry of the outbound transaction bundle. -/
structure BundleEntry where
  request : RequestInfo
  resource : Resource
  fullUrl : String
deriving DecidableEq, Repr

/-- The outbound transaction bundle. -/
structure Bundle where
  resourceType : String
  type : String
  entry : List BundleEntry
deriving DecidableEq, Repr

/-- The fixed requester reference hard-coded at `src/main.py` lines 114,
162 and 206. -/
def requesterRef : String :=
  "http://pyroserver.azurewebsites.net/pyro/PractitionerRole/00040000-ac10-0242-ebbf-08dd1a46f4d5"

/-- The fixed task owner reference hard-coded at `src/main.py` lines 158
and 202. -/
def ownerRef : String :=
  "http://pyroserver.azurewebsites.net/pyro/Organization/00040000-ac10-0242-bfe0-08dd1a32990a"

/-- The laboratory/pathology profile URL declared on every outbound
order (`src/main.py` lines 92–96). -/
def pathologyProfile : String :=
  "http://hl7.org.au/fhir/ereq/StructureDefinition/au-erequesting-servicerequest-path"

/-- The fixed category written onto every outbound order
(`src/main.py` lines 101–111). -/
def fixedCategory : CodeableConcept :=
  { coding :=
      [{ system := some "http://snomed.info/sct",
         code := some "108252007", display := some "Laboratory procedure" }],
    text := none }

/-- Embedding of `external_sr` from `src/main.py` (lines 90–121). -/
def external_sr (sr : OrderRecord) (order_number : Nat)
    (patient_id sr_id : String) : ExternalSR :=
  { meta := { profile := some [pathologyProfile] },
    requisition := identifier order_number,
    id := sr_id,
    contained := contained patient_id,
    authoredOn := "2024-12-12T10:00:00+10:00",
    category := [fixedCategory],
    code := sr.code,
    priority := sr.priority,
    requester := { reference := requesterRef },
    status := "active",
    intent := sr.intent,
    subject := { reference := "urn:uuid:" ++ patient_id },
    encounter := { reference := "#encounter" },
    insurance := [{ reference := "#coverage" }],
    extension :=
      [{ url := "http://hl7.org.au/fhir/ereq/StructureDefinition/au-erequesting-displaysequence",
         valueInteger := 1 }] }

/-- The body shared by both outbound tasks except for the tag code:
`external_group_task` uses tag `fulfilment-task-group`, `external_task`
uses tag `fulfilment-task` (`src/main.py` lines 122–207). -/
def taskBody (sr : OrderRecord) (order_number : Nat)
    (patient_id sr_id tagCode : String) : TaskOut :=
  { meta :=
      { profile := ["http://hl7.org.au/fhir/ereq/StructureDefinition/au-erequesting-task"],
        tag :=
          [{ system := some "http://hl7.org.au/fhir/ereq/CodeSystem/au-erequesting-task-tag",
             code := some tagCode, display := none }] },
    groupIdentifier := identifier order_number,
    status := "requested",
    businessStatus :=
      { coding :=
          [{ system := some "http://sonichealthcare.com.au/CodeSystem/pathology-order-status",
             code := some "active", display := none }],
        text := none },
    priority := sr.priority,
    code :=
      { coding :=
          [{ system := some "http://hl7.org/fhir/CodeSystem/task-code",
             code := some "fulfil", display := none }],
        text := none },
    intent := "order",
    focus := { reference := "urn:uuid:" ++ sr_id },
    owner := { reference := ownerRef },
    authoredOn := "2024-03-21T10:00:00+10:00",
    for_ := { reference := "urn:uuid:" ++ patient_id },
    requester := { reference := requesterRef } }

/-- Embedding of `external_group_task` from `src/main.py` (lines 122–163). -/
def external_group_task (sr : OrderRecord) (order_number : Nat)
    (patient_id sr_id : String) : TaskOut :=
  taskBody sr order_number patient_id sr_id "fulfilment-task-group"

/-- Embedding of `external_task` from `src/main.py` (lines 166–207). -/
def external_task (sr : OrderRecord) (order_number : Nat)
    (patient_id sr_id : String) : TaskOut :=
  taskBody sr order_number patient_id sr_id "fulfilment-task"

/-- The transformed patient body: `del patient_data["meta"]` (line 71)
and `del patient_data["id"]` (line 209). -/
def patient_out (patient : PatientData) : PatientOut :=
  { meta := none, id := none, fields := patient.fields }

/-- The transformed encounter body: `meta`, `participant` and `id`
deleted, `class` replaced by the AMB coding, `subject` set to the
patient placeholder (`src/main.py` lines 76–83, 210). -/
def encounter_out (patient_id : String) (encounter : EncounterData) : EncounterOut :=
  { id := none,
    meta := none,
    class_ :=
      { system := some "http://terminology.hl7.org/CodeSystem/v3-ActCode",
        code := some "AMB", display := none },
    subject := { reference := "urn:uuid:" ++ patient_id },
    fields := encounter.fields }

/-- Embedding of `prepare_service_request(sr, order_number)` from `src/main.py`
(lines 68–241).  The resolved patient/encounter resources and the three
`uuid4()` draws are explicit inputs; note that the bundle's Patient and
Encounter entries take their `fullUrl` from the ORIGINAL resource ids
(`patient_id`, `encounter_id`), while the order and the two tasks use
the fresh uuids. -/
def prepare_service_request (sr : OrderRecord) (order_number : Nat)
    (patient : PatientData) (encounter : EncounterData)
    (sr_id group_task_id task_id : String) : Bundle :=
  { resourceType := "Bundle",
    type := "transaction",
    entry :=
      [{ request := { url := "ServiceRequest", method := "POST" },
         resource := Resource.serviceRequest (external_sr sr order_number patient.id sr_id),
         fullUrl := "urn:uuid:" ++ sr_id },
       { request := { url := "Patient", method := "POST" },
         resource := Resource.patientRes (patient_out patient),
         fullUrl := "urn:uuid:" ++ patient.id },
       { request := { url := "Task", method := "POST" },
         resource := Resource.taskRes (external_group_task sr order_number patient.id sr_id),
         fullUrl := "urn:uuid:" ++ group_task_id },
       { request := { url := "Task", method := "POST" },
         resource := Resource.taskRes (external_task sr order_number patient.id sr_id),
         fullUrl := "urn:uuid:" ++ task_id },
       { request := { url := "Encounter", method := "POST" },
         resource := Resource.encounterRes (encounter_out patient.id encounter),
         fullUrl := "urn:uuid:" ++ encounter.id }] }

/-- Whether `pat` is a prefix of `s` — Python's `str.startswith`, written as
structural recursion on character lists so concrete instances evaluate
in the kernel. -/
def listStartsWith : List Char → List Char → Bool
  | _, [] => true
  | [], _ :: _ => false
  | a :: as, b :: bs => a = b && listStartsWith as bs

/-- Whether `pat` occurs as a substring of `s` — Python's `pat in s`. -/
def listContains : List Char → List Char → Bool
  | [], pat => pat.isEmpty
  | s@(_ :: rest), pat => listStartsWith s pat || listContains rest pat

/-- Python's `location.split("/")`, via structural recursion on the
character list: splitting on every `'/'`, keeping empty segments. -/
def splitSlashAux : List Char → List (List Char)
  | [] => [[]]
  | c :: cs =>
    let r := splitSlashAux cs
    if c = '/' then [] :: r
    else
      match r with
      | [] => [[c]]
      | h :: t => (c :: h) :: t

/-- Python's `location.split("/")` as a list of strings. -/
def pysplit (s : String) : List String :=
  (splitSlashAux s.data).map String.mk

/-- The external-identity extraction step of `syncronize`
(`src/main.py` lines 266–270): path segment 5 when the location
contains `"pyroserver.azurewebsites.net"`, segment 1 otherwise; a
missing segment is Python's `IndexError`. -/
def extractExternalId (location : String) : Except PyError String :=
  let parts := pysplit location
  if listContains location.data "pyroserver.azurewebsites.net".data then
    match parts.get? 5 with
    | some v => Except.ok v
    | none => Except.error PyError.indexError
  else
    match parts.get? 1 with
    | some v => Except.ok v
    | none => Except.error PyError.indexError

/-- The repository base URL active in `src/main.py` (line 13). -/
def REPOSITORY_BASE_URL : String := "https://erequesting.aidbox.beda.software/fhir"

/-- The destination namespace, `system` in `syncronize`
(`src/main.py` line 252). -/
def system : String := REPOSITORY_BASE_URL ++ "/ServiceRequest"

/-- The idempotency-guard loop of `syncronize` (`src/main.py` lines
253–255): scan the identifier list in order; a missing `"system"` key
is Python's `KeyError`; a system equal to the namespace raises
`Exception("Already synchronized")`. -/
def idempotencyGuard : List IdentEntry → String → Except PyError Unit
  | [], _ => Except.ok ()
  | i :: rest, ns =>
    match i.system with
    | none => Except.error PyError.keyError
    | some s =>
      if s = ns then Except.error PyError.alreadySynchronized
      else idempotencyGuard rest ns

/-- The environment of one `syncronize` invocation: the fetched order
record, the resolved patient and encounter, the live order count, the
response location reported for the bundle's first entry, and the three
`uuid4()` draws. -/
structure SyncEnv where
  sr : OrderRecord
  patient : PatientData
  encounter : EncounterData
  orderCount : Nat
  responseLocation : String
  srUuid : String
  groupTaskUuid : String
  taskUuid : String
deriving DecidableEq, Repr

/-- The observable outcome of one `syncronize` invocation: the error
raised (if any), the bundles submitted to the repository, and the
identifier list persisted back via `sr.save(fields=["identifier"])` —
`none` when no write-back happens; the write-back is the only mutation
the pipeline performs, and it carries only the identifier field. -/
structure SyncOutcome where
  error : Option PyError
  submitted : List Bundle
  writeBack : Option (List IdentEntry)
deriving DecidableEq, Repr

/-- Embedding of `syncronize(request)` from `src/main.py` (lines 244–277), with the
network collaborators replaced by the `SyncEnv` fields: guard, then
transform and submit, then extract the external identity from the first
entry's response location, then append the cross-reference and persist
the identifier field. -/
def syncronize (env : SyncEnv) : SyncOutcome :=
  match idempotencyGuard env.sr.identifier system with
  | Except.error e => { error := some e, submitted := [], writeBack := none }
  | Except.ok _ =>
    let order_number := env.orderCount
    let bundle := prepare_service_request env.sr order_number env.patient
      env.encounter env.srUuid env.groupTaskUuid env.taskUuid
    match extractExternalId env.responseLocation with
    | Except.error e => { error := some e, submitted := [bundle], writeBack := none }
    | Except.ok external_sr_id =>
      { error := none,
        submitted := [bundle],
        writeBack :=
          some (env.sr.identifier ++ [{ system := some system, value := external_sr_id }]) }

/-- Reference strings inside a contained resource: the coverage stub's
beneficiary; the encounter stub holds none. -/
def containedRefs : Contained → List String
  | Contained.coverage _ _ _ beneficiary _ => [beneficiary.reference]
  | Contained.encounterStub _ _ _ => []

/-- All reference strings occurring in a resource body as constructed by
the transformer (the reference-valued fields of the embedded model). -/
def Resource.references : Resource → List String
  | Resource.serviceRequest s =>
    s.subject.reference :: s.encounter.reference :: s.requester.reference ::
      (s.insurance.map Reference.reference ++ (s.contained.map containedRefs).flatten)
  | Resource.patientRes _ => []
  | Resource.taskRes t =>
    [t.focus.reference, t.owner.reference, t.for_.reference, t.requester.reference]
  | Resource.encounterRes e => [e.subject.reference]

/-- All reference strings occurring anywhere in a bundle's entries. -/
def Bundle.allRefs (b : Bundle) : List String :=
  (b.entry.map (fun e => e.resource.references)).flatten

/-- A bundle-local placeholder-style reference: one starting with
`"urn:uuid:"` (the form the destination resolves against entry
fullUrls). -/
def isUrnRef (r : String) : Bool :=
  listStartsWith r.data "urn:uuid:".data

/-- The outbound order carried by a bundle's first entry, when there is
one. -/
def Bundle.srResource (b : Bundle) : Option ExternalSR :=
  match b.entry with
  | e :: _ =>
    match e.resource with
    | Resource.serviceRequest s => some s
    | _ => none
  | [] => none

/-- The task carried by a bundle's entry at a given index, when there is
one. -/
def Bundle.taskAt (b : Bundle) (i : Nat) : Option TaskOut :=
  match b.entry[i]? with
  | some e =>
    match e.resource with
    | Resource.taskRes t => some t
    | _ => none
  | none => none

/-! ### Concrete instances used by witnesses and counterexamples -/

/-- A concrete resolved patient. -/
def patient0 : PatientData :=
  { id := "p1", meta := { profile := none }, fields := [("name", "Doe")] }

/-- A concrete resolved encounter. -/
def encounter0 : EncounterData :=
  { id := "e1", meta := { profile := none }, participant := [("individual", "Practitioner/pr-1")],
    class_ := { system := some "http://terminology.hl7.org/CodeSystem/v3-ActCode",
                code := some "IMP", display := none },
    fields := [("status", "finished")] }

/-- A concrete order record already carrying the destination
cross-reference. -/
def sr0 : OrderRecord :=
  { id := "sr-1",
    identifier := [{ system := some system, value := "ext-9" }],
    category := [fixedCategory],
    code := { coding := [{ system := some "http://snomed.info/sct",
                           code := some "26604007", display := none }],
              text := none },
    priority := "routine",
    intent := "order" }

/-- A concrete environment whose record is already synchronized. -/
def env0 : SyncEnv :=
  { sr := sr0, patient := patient0, encounter := encounter0,
    orderCount := 3, responseLocation := "ServiceRequest/abc-123",
    srUuid := "u-sr", groupTaskUuid := "u-gt", taskUuid := "u-t" }

/-- A concrete order record with no cross-reference yet. -/
def sr1 : OrderRecord :=
  { id := "sr-2",
    identifier := [],
    category := [fixedCategory],
    code := { coding := [{ system := some "http://snomed.info/sct",
                           code := some "26604007", display := none }],
              text := none },
    priority := "urgent",
    intent := "order" }

/-- A concrete environment for a successful synchronization. -/
def env1 : SyncEnv :=
  { sr := sr1, patient := patient0, encounter := encounter0,
    orderCount := 7, responseLocation := "ServiceRequest/abc-123",
    srUuid := "u-sr", groupTaskUuid := "u-gt", taskUuid := "u-t" }

/-- An imaging-style category (SNOMED 363679005), distinct from the
laboratory code 108252007. -/
def imagingCategory : CodeableConcept :=
  { coding :=
      [{ system := some "http://snomed.info/sct",
         code := some "363679005", display := some "Imaging" }],
    text := none }

/-- A concrete order record whose category coding code is NOT
108252007. -/
def srImaging : OrderRecord :=
  { id := "sr-3",
    identifier := [],
    category := [imagingCategory],
    code := { coding := [{ system := some "http://snomed.info/sct",
                           code := some "399208008", display := none }],
              text := none },
    priority := "stat",
    intent := "order" }

/-- A second concrete resolved patient, sharing nothing with
`patient0`. -/
def patientAlt : PatientData :=
  { id := "p2", meta := { profile := some ["http://example.org/p"] },
    fields := [("name", "Roe")] }

/-- A second concrete resolved encounter. -/
def encounterAlt : EncounterData :=
  { id := "e2", meta := { profile := none }, participant := [],
    class_ := { system := none, code := some "EMER", display := none },
    fields := [] }

/-! ### Helper lemmas -/

/-- A digit character built from `48 + m` decodes back to `m` when
`m < 10`. -/
theorem charOfNat_digit_toNat (m : Nat) (h : m < 10) :
    (Char.ofNat (48 + m)).toNat = 48 + m := by
  interval_cases m <;> decide

/-- Appending one character multiplies the decoded value by ten and adds
the character's digit value. -/
theorem digitsToNat_append_single (l : List Char) (c : Char) :
    digitsToNat (l ++ [c]) = digitsToNat l * 10 + (c.toNat - 48) := by
  simp [digitsToNat, List.foldl_append]

/-- Reading the digits of `n` back as a number recovers `n`, for any
sufficient fuel. -/
theorem digitsToNat_natToDigitsAux (fuel : Nat) :
    ∀ n : Nat, n < fuel → digitsToNat (natToDigitsAux fuel n) = n := by
  induction fuel with
  | zero => intro n h; omega
  | succ fuel ih =>
    intro n h
    rw [natToDigitsAux]
    by_cases h10 : n < 10
    · simp only [h10, if_true]
      simp [digitsToNat, charOfNat_digit_toNat n h10]
    · simp only [h10, if_false]
      rw [digitsToNat_append_single, ih (n / 10) (by omega),
        charOfNat_digit_toNat (n % 10) (by omega)]
      omega

/-- Reading the digits of `n` back as a number recovers `n`. -/
theorem digitsToNat_natToDigits (n : Nat) :
    digitsToNat (natToDigits n) = n :=
  digitsToNat_natToDigitsAux (n + 1) n (by omega)

/-- Leading zeros do not change the decoded value. -/
theorem digitsToNat_replicate_zero (k : Nat) (l : List Char) :
    digitsToNat (List.replicate k '0' ++ l) = digitsToNat l := by
  induction k with
  | zero => simp
  | succ k ih =>
    rw [List.replicate_succ, List.cons_append]
    simpa [digitsToNat] using ih

/-- Zero-padding to width 6 does not change the decoded value. -/
theorem digitsToNat_padSix (l : List Char) :
    digitsToNat (padSix l) = digitsToNat l :=
  digitsToNat_replicate_zero _ l

/-- Claim C9: for every sequence number `n`, the formatted order
identifier equals the prefix `"BEDA0325-"` followed by the decimal
digits of `n` left-padded with zeros to width 6; the padded field has
length `max 6 (number of digits)` and still decodes to `n`; in
particular the values for 0 and 123456 are `"BEDA0325-000000"` and
`"BEDA0325-123456"`. -/
theorem claim_C9 :
    (∀ n : Nat,
        (identifier n).value =
          "BEDA0325-" ++
            String.mk (List.replicate (6 - (natToDigits n).length) '0' ++ natToDigits n) ∧
        (padSix (natToDigits n)).length = max 6 (natToDigits n).length ∧
        digitsToNat (padSix (natToDigits n)) = n) ∧
    (identifier 0).value = "BEDA0325-000000" ∧
    (identifier 123456).value = "BEDA0325-123456" := by
  refine ⟨fun n => ⟨rfl, ?_, ?_⟩, by decide, by decide⟩
  · simp [padSix]; omega
  · rw [digitsToNat_padSix, digitsToNat_natToDigits]

/-- If every identifier entry carries a system-URI and some entry's
system equals the namespace, the guard loop raises
`AlreadySynchronized`. -/
theorem idempotencyGuard_already (ids : List IdentEntry) (ns : String)
    (hwf : ∀ i ∈ ids, i.system ≠ none)
    (hmatch : ∃ i ∈ ids, i.system = some ns) :
    idempotencyGuard ids ns = Except.error PyError.alreadySynchronized := by
  induction ids with
  | nil => rcases hmatch with ⟨i, hi, _⟩; simp at hi
  | cons head tail ih =>
    rw [idempotencyGuard]
    cases hsys : head.system with
    | none => exact absurd hsys (hwf head (by simp))
    | some s =>
      by_cases hs : s = ns
      · simp [hs]
      · simp only [hs, if_false]
        apply ih
        · intro i hi
          exact hwf i (List.mem_cons_of_mem head hi)
        · rcases hmatch with ⟨i, hi, hsome⟩
          rcases List.mem_cons.mp hi with rfl | hmem
          · rw [hsys] at hsome
            exact absurd (Option.some.inj hsome) hs
          · exact ⟨i, hmem, hsome⟩

/-- Claim C1: for every invocation environment whose fetched order
record's identifier entries each carry a system-URI and already include
one whose system equals the destination namespace, `syncronize` fails
with `AlreadySynchronized`, submits nothing, and performs no
write-back, so the identifier list is unchanged. -/
theorem claim_C1 (env : SyncEnv)
    (hwf : ∀ i ∈ env.sr.identifier, i.system ≠ none)
    (hmatch : ∃ i ∈ env.sr.identifier, i.system = some system) :
    (syncronize env).error = some PyError.alreadySynchronized ∧
    (syncronize env).submitted = [] ∧
    (syncronize env).writeBack = none := by
  have h := idempotencyGuard_already env.sr.identifier system hwf hmatch
  simp [syncronize, h]

/-- Witness for claim C1 at the concrete environment `env0`. -/
theorem claim_C1_witness :
    (syncronize env0).error = some PyError.alreadySynchronized ∧
    (syncronize env0).submitted = [] ∧
    (syncronize env0).writeBack = none :=
  claim_C1 env0 (by decide) (by decide)

/-- Claim C3: whenever `syncronize` succeeds, the persisted identifier
list is exactly the prior list with one entry appended — so its length
grows by one and every prior entry is preserved — the appended entry's
system is the destination namespace and its value is the external
identity extracted from the response location, the submitted bundle is
the transformed one, and (by construction of the model's write-back
channel) only the identifier field is persisted. -/
theorem claim_C3 (env : SyncEnv) (h : (syncronize env).error = none) :
    ∃ extId,
      extractExternalId env.responseLocation = Except.ok extId ∧
      (syncronize env).writeBack =
        some (env.sr.identifier ++ [{ system := some system, value := extId }]) ∧
      (env.sr.identifier ++ [({ system := some system, value := extId } : IdentEntry)]).length =
        env.sr.identifier.length + 1 ∧
      (syncronize env).submitted =
        [prepare_service_request env.sr env.orderCount env.patient env.encounter
          env.srUuid env.groupTaskUuid env.taskUuid] := by
  unfold syncronize at h ⊢
  cases hg : idempotencyGuard env.sr.identifier system with
  | error e => rw [hg] at h; simp at h
  | ok u =>
    rw [hg] at h
    cases hx : extractExternalId env.responseLocation with
    | error e => rw [hx] at h; simp at h
    | ok extId =>
      refine ⟨extId, rfl, ?_, ?_, ?_⟩
      · simp
      · simp
      · simp

/-- Witness for claim C3 at the concrete environment `env1`. -/
theorem claim_C3_witness :
    ∃ extId,
      extractExternalId env1.responseLocation = Except.ok extId ∧
      (syncronize env1).writeBack =
        some (env1.sr.identifier ++ [{ system := some system, value := extId }]) ∧
      (env1.sr.identifier ++ [({ system := some system, value := extId } : IdentEntry)]).length =
        env1.sr.identifier.length + 1 ∧
      (syncronize env1).submitted =
        [prepare_service_request env1.sr env1.orderCount env1.patient env1.encounter
          env1.srUuid env1.groupTaskUuid env1.taskUuid] :=
  claim_C3 env1 (by decide)

/-- Claim C5: in every bundle the transformer produces, every
placeholder-style (`urn:uuid:`) reference occurring in any entry's body
resolves to the `fullUrl` of some entry of the same bundle — no
reference that targets a bundle entry uses an external or
not-yet-assigned identity. -/
theorem claim_C5 (sr : OrderRecord) (n : Nat) (patient : PatientData)
    (encounter : EncounterData) (u1 u2 u3 : String) :
    ∀ r ∈ (prepare_service_request sr n patient encounter u1 u2 u3).allRefs,
      isUrnRef r = true →
      ∃ e ∈ (prepare_service_request sr n patient encounter u1 u2 u3).entry,
        e.fullUrl = r := by
  intro r hr hurn
  simp only [prepare_service_request, Bundle.allRefs, Resource.references,
    external_sr, external_group_task, external_task, taskBody, encounter_out,
    patient_out, contained, containedRefs, List.map_cons, List.map_nil,
    List.flatten, List.cons_append, List.nil_append, List.append_nil,
    List.mem_cons, List.mem_singleton, List.not_mem_nil, or_false,
    List.mem_append] at hr
  rcases hr with rfl | rfl | rfl | rfl | rfl | rfl | rfl | rfl | rfl | rfl | rfl | rfl | rfl | rfl <;>
    first
      | exact absurd hurn (by decide)
      | simp [prepare_service_request, List.exists_mem_cons_iff]

/-- Witness for claim C5: in the concrete bundle built from `sr1`,
the placeholder reference `"urn:uuid:p1"` (used as the order's subject,
the tasks' patient, the coverage beneficiary and the encounter subject)
is the fullUrl of an entry of that same bundle. -/
theorem claim_C5_witness :
    ∃ e ∈ (prepare_service_request sr1 0 patient0 encounter0 "u-sr" "u-gt" "u-t").entry,
      e.fullUrl = "urn:uuid:p1" :=
  claim_C5 sr1 0 patient0 encounter0 "u-sr" "u-gt" "u-t" "urn:uuid:p1"
    (by decide) (by decide)

/-- Claim C2 counterexample: on the response location
`"fhir/ServiceRequest/abc-123"` the extraction step of `syncronize`
returns `"ServiceRequest"` (path segment 1), not the claimed
`"abc-123"`. -/
theorem claim_C2_counterexample :
    extractExternalId "fhir/ServiceRequest/abc-123" = Except.ok "ServiceRequest" ∧
    extractExternalId "fhir/ServiceRequest/abc-123" ≠ Except.ok "abc-123" := by
  constructor <;> decide

/-- Claim C2 (amended): extraction takes a fixed path segment — segment
5 when the location contains `"pyroserver.azurewebsites.net"`, segment
1 otherwise, with no search for the endpoint-name token — so
`"ServiceRequest/abc-123"` and the full pyroserver history URL both
yield `"abc-123"`, while `"fhir/ServiceRequest/abc-123"` yields
`"ServiceRequest"`. -/
theorem claim_C2 :
    extractExternalId "ServiceRequest/abc-123" = Except.ok "abc-123" ∧
    extractExternalId
        "https://pyroserver.azurewebsites.net/pyro/ServiceRequest/abc-123/_history/1" =
      Except.ok "abc-123" ∧
    extractExternalId "fhir/ServiceRequest/abc-123" = Except.ok "ServiceRequest" ∧
    ∀ loc : String,
      extractExternalId loc =
        if listContains loc.data "pyroserver.azurewebsites.net".data then
          ((pysplit loc).get? 5).elim (Except.error PyError.indexError) Except.ok
        else
          ((pysplit loc).get? 1).elim (Except.error PyError.indexError) Except.ok := by
  refine ⟨by decide, by decide, by decide, fun loc => ?_⟩
  rw [extractExternalId]
  by_cases hc : listContains loc.data "pyroserver.azurewebsites.net".data
  · simp only [hc, if_true]
    cases (pysplit loc).get? 5 <;> simp
  · simp only [hc, if_false]
    cases (pysplit loc).get? 1 <;> simp

/-- Claim C4 (amended): the outbound order produced by transformation
carries the laboratory/pathology profile URL for EVERY source record —
the profile is hard-coded, with no switch on the record's category
code. -/
theorem claim_C4 (sr : OrderRecord) (n : Nat) (patient : PatientData)
    (encounter : EncounterData) (u1 u2 u3 : String) :
    ∃ s, (prepare_service_request sr n patient encounter u1 u2 u3).srResource = some s ∧
      s.meta.profile = some [pathologyProfile] :=
  ⟨external_sr sr n patient.id u1, rfl, rfl⟩

/-- Claim C4 counterexample: a record whose category coding code is
`363679005` (not `108252007`) still yields the laboratory/pathology
profile URL, whereas the claim requires the (distinct) imaging/default
profile URL for such a record. -/
theorem claim_C4_counterexample :
    ∃ s, (prepare_service_request srImaging 1 patient0 encounter0 "u-sr" "u-gt" "u-t").srResource =
        some s ∧
      s.meta.profile = some [pathologyProfile] ∧
      srImaging.category = [imagingCategory] ∧
      imagingCategory ≠ fixedCategory :=
  ⟨external_sr srImaging 1 patient0.id "u-sr", rfl, rfl, rfl, by decide⟩

/-- Claim C6 (amended): transformation never fails with
`MissingExternalIdentity` (it is total), and the outbound order's
requester and both tasks' owner and requester are fixed constant
references, independent of the source record's references. -/
theorem claim_C6 (sr : OrderRecord) (n : Nat) (patient : PatientData)
    (encounter : EncounterData) (u1 u2 u3 : String) :
    ∃ s gt t,
      (prepare_service_request sr n patient encounter u1 u2 u3).srResource = some s ∧
      (prepare_service_request sr n patient encounter u1 u2 u3).taskAt 2 = some gt ∧
      (prepare_service_request sr n patient encounter u1 u2 u3).taskAt 3 = some t ∧
      s.requester.reference = requesterRef ∧
      gt.owner.reference = ownerRef ∧ gt.requester.reference = requesterRef ∧
      t.owner.reference = ownerRef ∧ t.requester.reference = requesterRef :=
  ⟨external_sr sr n patient.id u1,
   external_group_task sr n patient.id u1,
   external_task sr n patient.id u1,
   rfl, rfl, rfl, rfl, rfl, rfl, rfl, rfl⟩

/-- Claim C6 counterexample: two order records differing in every
content field produce outbound orders and tasks whose
requester/owner references are the same hard-coded constants, so those
references are not obtained by resolving the source record's
requester/performer references; and transformation succeeds for both —
no `MissingExternalIdentity` failure exists. -/
theorem claim_C6_counterexample :
    ((prepare_service_request sr1 0 patient0 encounter0 "u-sr" "u-gt" "u-t").srResource).map
        (fun s => s.requester.reference) = some requesterRef ∧
    ((prepare_service_request srImaging 5 patientAlt encounterAlt "v1" "v2" "v3").srResource).map
        (fun s => s.requester.reference) = some requesterRef ∧
    ((prepare_service_request sr1 0 patient0 encounter0 "u-sr" "u-gt" "u-t").taskAt 2).map
        (fun t => t.owner.reference) = some ownerRef ∧
    ((prepare_service_request srImaging 5 patientAlt encounterAlt "v1" "v2" "v3").taskAt 2).map
        (fun t => t.owner.reference) = some ownerRef ∧
    sr1 ≠ srImaging := by
  refine ⟨rfl, rfl, ?_, ?_, by decide⟩ <;> rfl

/-- Claim C7 (amended): for every transformed patient and encounter
context resource, the whole metadata block is dropped (even when an
explicit profile list is present), the original identity is stripped
from the body, and the bundle entry's fullUrl is `"urn:uuid:"` followed
by the resource's ORIGINAL source-system id — not a freshly assigned
identity. -/
theorem claim_C7 (sr : OrderRecord) (n : Nat) (patient : PatientData)
    (encounter : EncounterData) (u1 u2 u3 : String) :
    (prepare_service_request sr n patient encounter u1 u2 u3).entry.get? 1 =
      some { request := { url := "Patient", method := "POST" },
             resource := Resource.patientRes
               { meta := none, id := none, fields := patient.fields },
             fullUrl := "urn:uuid:" ++ patient.id } ∧
    (prepare_service_request sr n patient encounter u1 u2 u3).entry.get? 4 =
      some { request := { url := "Encounter", method := "POST" },
             resource := Resource.encounterRes
               { id := none, meta := none,
                 class_ := { system := some "http://terminology.hl7.org/CodeSystem/v3-ActCode",
                             code := some "AMB", display := none },
                 subject := { reference := "urn:uuid:" ++ patient.id },
                 fields := encounter.fields },
             fullUrl := "urn:uuid:" ++ encounter.id } :=
  ⟨rfl, rfl⟩

/-- Claim C7 counterexample: a patient carrying an explicit
`meta.profile` list is emitted with NO metadata at all (the claim
requires the profile list to be retained), and its bundle entry's
fullUrl is `"urn:uuid:p2"` — derived from the patient's original
source-system id `"p2"` — rather than a freshly assigned identity. -/
theorem claim_C7_counterexample :
    ∃ e, (prepare_service_request sr1 0 patientAlt encounter0 "u-sr" "u-gt" "u-t").entry.get? 1 =
        some e ∧
      patientAlt.meta.profile = some ["http://example.org/p"] ∧
      e.resource = Resource.patientRes { meta := none, id := none, fields := [("name", "Roe")] } ∧
      e.fullUrl = "urn:uuid:p2" :=
  ⟨_, rfl, rfl, rfl, rfl⟩

/-- Claim C8 (amended): the outbound order's clinical code, priority
and intent equal the source record's verbatim, but its category is the
fixed laboratory coding (code 108252007) regardless of the source
record's category. -/
theorem claim_C8 (sr : OrderRecord) (n : Nat) (patient : PatientData)
    (encounter : EncounterData) (u1 u2 u3 : String) :
    ∃ s, (prepare_service_request sr n patient encounter u1 u2 u3).srResource = some s ∧
      s.code = sr.code ∧ s.priority = sr.priority ∧ s.intent = sr.intent ∧
      s.category = [fixedCategory] :=
  ⟨external_sr sr n patient.id u1, rfl, rfl, rfl, rfl, rfl⟩

/-- Claim C8 counterexample: for a record whose category is the imaging
coding, the outbound order's category is NOT the source category — it
is the fixed laboratory coding — so category is not copied verbatim. -/
theorem claim_C8_counterexample :
    ∃ s, (prepare_service_request srImaging 1 patient0 encounter0 "u-sr" "u-gt" "u-t").srResource =
        some s ∧
      s.category ≠ srImaging.category :=
  ⟨external_sr srImaging 1 patient0.id "u-sr", rfl, by decide⟩

/-- Claim C10 counterexample: an identifier list that DOES contain an
entry lacking the `"system"` key, but in which a matching entry comes
first, makes the check raise `AlreadySynchronized` — the
missing-key lookup never happens and no `KeyError` is raised, contrary
to the claim's "any entry" quantification. -/
theorem claim_C10_counterexample :
    idempotencyGuard
        [{ system := some system, value := "v" }, { system := none, value := "w" }] system =
      Except.error PyError.alreadySynchronized ∧
    idempotencyGuard
        [{ system := some system, value := "v" }, { system := none, value := "w" }] system ≠
      Except.error PyError.keyError := by
  constructor <;> decide

/-- Claim C10 (amended): the idempotency check raises the missing-key
`KeyError` exactly when the scan reaches an entry lacking `"system"`
before any entry matching the namespace — in particular whenever every
earlier entry carries a non-matching system; and over lists in which
every entry carries a system field the check never raises `KeyError`
(it is total in that sense). -/
theorem claim_C10 :
    (∀ (pre post : List IdentEntry) (e : IdentEntry) (ns : String),
        e.system = none →
        (∀ i ∈ pre, ∃ s, i.system = some s ∧ s ≠ ns) →
        idempotencyGuard (pre ++ e :: post) ns = Except.error PyError.keyError) ∧
    (∀ (ids : List IdentEntry) (ns : String),
        (∀ i ∈ ids, i.system ≠ none) →
        idempotencyGuard ids ns ≠ Except.error PyError.keyError) := by
  constructor
  · intro pre post e ns he hpre
    induction pre with
    | nil => simp [idempotencyGuard, he]
    | cons head tail ih =>
      obtain ⟨s, hs, hne⟩ := hpre head (by simp)
      rw [List.cons_append, idempotencyGuard, hs]
      simp only [hne, if_false]
      exact ih fun i hi => hpre i (List.mem_cons_of_mem head hi)
  · intro ids ns hwf
    induction ids with
    | nil => simp [idempotencyGuard]
    | cons head tail ih =>
      rw [idempotencyGuard]
      cases hsys : head.system with
      | none => exact absurd hsys (hwf head (by simp))
      | some s =>
        by_cases hs : s = ns
        · simp [hs]
        · simp only [hs, if_false]
          exact ih fun i hi => hwf i (List.mem_cons_of_mem head hi)

/-- Witness for claim C10: a concrete list whose single leading entry
carries a non-matching system followed by an entry with no system makes
the guard raise `KeyError`; and a concrete all-systems list never
does. -/
theorem claim_C10_witness :
    idempotencyGuard
        [{ system := some "http://other.example/ids", value := "a" },
         { system := none, value := "b" }] system =
      Except.error PyError.keyError ∧
    idempotencyGuard [{ system := some "http://other.example/ids", value := "a" }] system ≠
      Except.error PyError.keyError :=
  ⟨claim_C10.1 [{ system := some "http://other.example/ids", value := "a" }]
      [] { system := none, value := "b" } system rfl
      (by intro i hi
          simp only [List.mem_singleton] at hi
          exact ⟨"http://other.example/ids", by rw [hi], by decide⟩),
   claim_C10.2 [{ system := some "http://other.example/ids", value := "a" }] system
      (by intro i hi
          simp only [List.mem_singleton] at hi
          rw [hi]
          simp)⟩
